import Mathlib

/-!
Shallow embedding of the coordinate-transform pipeline and the tile
renderer of the VFR function-routes application
(src/VFRFunctionRoutes/geometry.py, projutils.py, rendering.py), together
with theorems settling the spec claims about them.

Numbers are modelled by the reals; Python exceptions by an `Except` value;
object attribute access on a value of the wrong shape (which raises
AttributeError in Python) by an error-returning lookup.
-/

open scoped Classical

namespace VFR

/-- The 3x3 homogeneous transformation matrices used throughout the code. -/
abbrev Mat3 := Matrix (Fin 3) (Fin 3) ℝ

/-- The Python exceptions that the embedded code can raise. -/
inductive PyError where
  | valueError
  | attributeError
  | indexError
  | linAlgError
  | fileNotFoundError
  | connectionError
  deriving DecidableEq, Repr

/-- Enum VFRCoordSystem of geometry.py (values assigned by auto(): 1..5). -/
inductive VFRCoordSystem where
  | FUNCTION
  | MAPCROP_XY
  | MAP_XY
  | FULL_WORLD_XY
  | LONLAT
  deriving DecidableEq, Repr

/-- Member values of the VFRCoordSystem enum, as assigned by auto(). -/
def VFRCoordSystem.value : VFRCoordSystem → ℕ
  | .FUNCTION => 1
  | .MAPCROP_XY => 2
  | .MAP_XY => 3
  | .FULL_WORLD_XY => 4
  | .LONLAT => 5

/-- The data of a VFRFunctionRoute that project_point consults: the pyproj
projection (forward and inverse direction) and the four stored
transformation matrices (functionroute.py lines 95-123). -/
structure RouteData where
  proj_fwd : ℝ → ℝ → ℝ × ℝ
  proj_inv : ℝ → ℝ → ℝ × ℝ
  matrix_fullmap2map : Mat3
  matrix_map2fullmap : Mat3
  matrix_map2cropmap : Mat3
  matrix_cropmap2map : Mat3

/-- The data of a VFRLeg that project_point consults: the stored
transformation matrix pair (geometry.py lines 548-556). -/
structure LegData where
  matrix_func2cropmap : Mat3
  matrix_cropmap2func : Mat3

mutual

/-- A VFRPoint of geometry.py: coordinates, coordinate system, and the
(optional) route and leg references. Since Python is dynamically typed and
project_point (geometry.py lines 169 and 187) stores a VFRPoint in the leg
slot of the points it constructs, the leg slot is modelled by `LegSlot`,
which can hold nothing, a leg, or a point. -/
inductive VFRPoint where
  | mk (x y : ℝ) (coord_system : VFRCoordSystem)
       (route : Option RouteData) (leg : LegSlot)

/-- The possible run-time contents of the `leg` attribute of a VFRPoint. -/
inductive LegSlot where
  | none
  | leg (l : LegData)
  | point (p : VFRPoint)

end

/-- Attribute x of a VFRPoint. -/
def VFRPoint.x : VFRPoint → ℝ
  | .mk a _ _ _ _ => a

/-- Attribute y of a VFRPoint. -/
def VFRPoint.y : VFRPoint → ℝ
  | .mk _ b _ _ _ => b

/-- Attribute coord_system of a VFRPoint. -/
def VFRPoint.coord_system : VFRPoint → VFRCoordSystem
  | .mk _ _ c _ _ => c

/-- Attribute route of a VFRPoint. -/
def VFRPoint.route : VFRPoint → Option RouteData
  | .mk _ _ _ r _ => r

/-- Attribute leg of a VFRPoint. -/
def VFRPoint.leg : VFRPoint → LegSlot
  | .mk _ _ _ _ l => l

/-- Python truthiness of the leg attribute: only None is falsy. -/
def LegSlot.truthy : LegSlot → Bool
  | .none => false
  | .leg _ => true
  | .point _ => true

/-- Reading an attribute of the optional route: on None, Python raises
AttributeError. -/
def getRoute : Option RouteData → Except PyError RouteData
  | some r => .ok r
  | Option.none => .error .attributeError

/-- Reading attribute matrix_cropmap2func of whatever the leg slot holds:
a VFRPoint (or None) has no such attribute, so Python raises
AttributeError. -/
def LegSlot.matrix_cropmap2func : LegSlot → Except PyError Mat3
  | .leg l => .ok l.matrix_cropmap2func
  | _ => .error .attributeError

/-- Reading attribute matrix_func2cropmap of whatever the leg slot holds. -/
def LegSlot.matrix_func2cropmap : LegSlot → Except PyError Mat3
  | .leg l => .ok l.matrix_func2cropmap
  | _ => .error .attributeError

/-- Function _apply_transformation_matrix of projutils.py (lines 102-120):
extend the point to homogeneous coordinates, multiply by the matrix, keep
the first two components. -/
def _apply_transformation_matrix (p : ℝ × ℝ) (m : Mat3) : ℝ × ℝ :=
  let v : Fin 3 → ℝ := ![p.1, p.2, 1]
  let w := m.mulVec v
  (w 0, w 1)

/-- The running state of the conversion loop in project_point: the current
coordinates and the current coordinate system. -/
structure ProjSt where
  curx : ℝ
  cury : ℝ
  cursys : VFRCoordSystem

/-- Step of project_point at geometry.py lines 155-156: LONLAT down to
FULL_WORLD_XY through the route projection. -/
def stepD_lonlat (route : Option RouteData) (t : VFRCoordSystem)
    (s : ProjSt) : Except PyError ProjSt :=
  if s.cursys = .LONLAT ∧ t.value < s.cursys.value then do
    let r ← getRoute route
    let xy := r.proj_fwd s.curx s.cury
    pure ⟨xy.1, xy.2, .FULL_WORLD_XY⟩
  else pure s

/-- Step of project_point at geometry.py lines 157-160: FULL_WORLD_XY down
to MAP_XY through matrix_fullmap2map. -/
def stepD_fullworld (route : Option RouteData) (t : VFRCoordSystem)
    (s : ProjSt) : Except PyError ProjSt :=
  if s.cursys = .FULL_WORLD_XY ∧ t.value < s.cursys.value then do
    let r ← getRoute route
    let xy := _apply_transformation_matrix (s.curx, s.cury) r.matrix_fullmap2map
    pure ⟨xy.1, xy.2, .MAP_XY⟩
  else pure s

/-- Step of project_point at geometry.py lines 161-164: MAP_XY down to
MAPCROP_XY through matrix_map2cropmap. -/
def stepD_map (route : Option RouteData) (t : VFRCoordSystem)
    (s : ProjSt) : Except PyError ProjSt :=
  if s.cursys = .MAP_XY ∧ t.value < s.cursys.value then do
    let r ← getRoute route
    let xy := _apply_transformation_matrix (s.curx, s.cury) r.matrix_map2cropmap
    pure ⟨xy.1, xy.2, .MAPCROP_XY⟩
  else pure s

/-- Step of project_point at geometry.py lines 165-168: MAPCROP_XY down to
FUNCTION through the leg attribute matrix_cropmap2func. -/
def stepD_mapcrop (leg : LegSlot) (t : VFRCoordSystem)
    (s : ProjSt) : Except PyError ProjSt :=
  if s.cursys = .MAPCROP_XY ∧ t.value < s.cursys.value then do
    let m ← leg.matrix_cropmap2func
    let xy := _apply_transformation_matrix (s.curx, s.cury) m
    pure ⟨xy.1, xy.2, .FUNCTION⟩
  else pure s

/-- Step of project_point at geometry.py lines 171-174: FUNCTION up to
MAPCROP_XY through the leg attribute matrix_func2cropmap. -/
def stepU_function (leg : LegSlot) (t : VFRCoordSystem)
    (s : ProjSt) : Except PyError ProjSt :=
  if s.cursys = .FUNCTION ∧ s.cursys.value < t.value then do
    let m ← leg.matrix_func2cropmap
    let xy := _apply_transformation_matrix (s.curx, s.cury) m
    pure ⟨xy.1, xy.2, .MAPCROP_XY⟩
  else pure s

/-- Step of project_point at geometry.py lines 175-178: MAPCROP_XY up to
MAP_XY through matrix_cropmap2map. -/
def stepU_mapcrop (route : Option RouteData) (t : VFRCoordSystem)
    (s : ProjSt) : Except PyError ProjSt :=
  if s.cursys = .MAPCROP_XY ∧ s.cursys.value < t.value then do
    let r ← getRoute route
    let xy := _apply_transformation_matrix (s.curx, s.cury) r.matrix_cropmap2map
    pure ⟨xy.1, xy.2, .MAP_XY⟩
  else pure s

/-- Step of project_point at geometry.py lines 179-182: MAP_XY up to
FULL_WORLD_XY through matrix_map2fullmap. -/
def stepU_map (route : Option RouteData) (t : VFRCoordSystem)
    (s : ProjSt) : Except PyError ProjSt :=
  if s.cursys = .MAP_XY ∧ s.cursys.value < t.value then do
    let r ← getRoute route
    let xy := _apply_transformation_matrix (s.curx, s.cury) r.matrix_map2fullmap
    pure ⟨xy.1, xy.2, .FULL_WORLD_XY⟩
  else pure s

/-- Step of project_point at geometry.py lines 183-186: FULL_WORLD_XY up to
LONLAT through the inverse route projection. -/
def stepU_fullworld (route : Option RouteData) (t : VFRCoordSystem)
    (s : ProjSt) : Except PyError ProjSt :=
  if s.cursys = .FULL_WORLD_XY ∧ s.cursys.value < t.value then do
    let r ← getRoute route
    let xy := r.proj_inv s.curx s.cury
    pure ⟨xy.1, xy.2, .LONLAT⟩
  else pure s

/-- The downward conversion chain of project_point
(geometry.py lines 154-168). -/
def down_convert (route : Option RouteData) (leg : LegSlot)
    (t : VFRCoordSystem) (s0 : ProjSt) : Except PyError ProjSt := do
  let s1 ← stepD_lonlat route t s0
  let s2 ← stepD_fullworld route t s1
  let s3 ← stepD_map route t s2
  stepD_mapcrop leg t s3

/-- The upward conversion chain of project_point
(geometry.py lines 171-186). -/
def up_convert (route : Option RouteData) (leg : LegSlot)
    (t : VFRCoordSystem) (s0 : ProjSt) : Except PyError ProjSt := do
  let s1 ← stepU_function leg t s0
  let s2 ← stepU_mapcrop route t s1
  let s3 ← stepU_map route t s2
  stepU_fullworld route t s3

/-- Method VFRPoint.project_point of geometry.py (lines 143-187).
Note that both return statements (lines 169 and 187) construct the result
as VFRPoint(curx, cury, cursys, self.route, self): the last constructor
argument, the leg slot, receives the point itself. -/
def VFRPoint.project_point (p : VFRPoint) (to_system : VFRCoordSystem) :
    Except PyError VFRPoint :=
  if p.leg.truthy = false ∧
      (p.coord_system = .FUNCTION ∨ to_system = .FUNCTION) then
    .error .valueError
  else if p.coord_system = to_system then
    .ok p
  else if to_system.value < p.coord_system.value then
    (down_convert p.route p.leg to_system ⟨p.x, p.y, p.coord_system⟩).map
      (fun s => VFRPoint.mk s.curx s.cury s.cursys p.route (.point p))
  else
    (up_convert p.route p.leg to_system ⟨p.x, p.y, p.coord_system⟩).map
      (fun s => VFRPoint.mk s.curx s.cury s.cursys p.route (.point p))

/-- Function _rotate_point of projutils.py (lines 37-63): rotate `point`
around `center` by `angle_degrees` degrees (math.radians converts by
multiplying with pi/180). -/
noncomputable def _rotate_point (point center : ℝ × ℝ) (angle_degrees : ℝ) :
    ℝ × ℝ :=
  ((point.1 - center.1) * Real.cos (angle_degrees * Real.pi / 180) -
     (point.2 - center.2) * Real.sin (angle_degrees * Real.pi / 180) +
     center.1,
   (point.1 - center.1) * Real.sin (angle_degrees * Real.pi / 180) +
     (point.2 - center.2) * Real.cos (angle_degrees * Real.pi / 180) +
     center.2)

/-- Row (x, y, 1) built by _calculate_2d_transformation_matrix for each
correspondence point. -/
def homRow (p : ℝ × ℝ) : Fin 3 → ℝ := ![p.1, p.2, 1]

/-- Function _calculate_2d_transformation_matrix of projutils.py
(lines 66-99). Raises ValueError unless the two lists have the same
length, at least 2. Builds the row matrices A (sources) and B
(destinations), solves A X = B by least squares (np.linalg.lstsq) and
returns the transpose of X. The least-squares solution is modelled by the
normal equations X = (Aᵀ A)⁻¹ Aᵀ B, which is exactly numpy's result
whenever A has full column rank. The rows are read with getD; the length
guard makes every index in range, so the default is never consulted. -/
noncomputable def _calculate_2d_transformation_matrix
    (sp dp : List (ℝ × ℝ)) : Except PyError Mat3 :=
  if sp.length = dp.length ∧ 2 ≤ sp.length then
    let A : Matrix (Fin sp.length) (Fin 3) ℝ :=
      Matrix.of fun i j => homRow (sp.getD i.val (0, 0)) j
    let B : Matrix (Fin sp.length) (Fin 3) ℝ :=
      Matrix.of fun i j => homRow (dp.getD i.val (0, 0)) j
    Except.ok ((A.transpose * A)⁻¹ * (A.transpose * B)).transpose
  else .error .valueError

/-- Lines 636-641 of geometry.py (method VFRLeg.calc_transformations): the
source and destination correspondence lists, with the synthetic third
pair appended when fewer than 3 points are given. The appended source
point is sp[0] rotated around sp[1] by -90 degrees, the appended
destination point is dp[0] rotated around dp[1] by +90 degrees; indexing
a list shorter than 2 raises IndexError. -/
noncomputable def synthesize_correspondences (sp dp : List (ℝ × ℝ)) :
    Except PyError (List (ℝ × ℝ) × List (ℝ × ℝ)) :=
  if sp.length < 3 then
    match sp.get? 0, sp.get? 1, dp.get? 0, dp.get? 1 with
    | some s0, some s1, some d0, some d1 =>
        .ok (sp ++ [_rotate_point s0 s1 (-90)], dp ++ [_rotate_point d0 d1 90])
    | _, _, _, _ => .error .indexError
  else .ok (sp, dp)

/-- The leg transform fit (geometry.py lines 636-643): append the
synthetic correspondence when needed, then fit the affine matrix. -/
noncomputable def fit_leg_transform (sp dp : List (ℝ × ℝ)) :
    Except PyError Mat3 := do
  let sd ← synthesize_correspondences sp dp
  _calculate_2d_transformation_matrix sd.1 sd.2

/-- The pair of matrices stored on a VFRLeg
(fields _matrix_func2cropmap and _matrix_cropmap2func). -/
structure LegMatrices where
  matrix_func2cropmap : Mat3
  matrix_cropmap2func : Mat3

/-- The try/except block of VFRLeg.calc_transformations (geometry.py lines
642-646) as a state update on the stored matrix pair. The forward matrix
is assigned first; then np.linalg.inv is attempted, which raises
LinAlgError exactly when the fitted matrix is singular (det = 0), in
which case the except clause leaves whatever was assigned so far: the
forward matrix keeps the freshly fitted value while the inverse keeps its
old value. If the fit itself raises, neither assignment happens. -/
noncomputable def calc_transformations_update (sp dp : List (ℝ × ℝ))
    (old : LegMatrices) : LegMatrices :=
  match fit_leg_transform sp dp with
  | .error _ => old
  | .ok F =>
      if F.det = 0 then ⟨F, old.matrix_cropmap2func⟩
      else ⟨F, F⁻¹⟩

/-- A SimpleRect of rendering.py: two corner points. -/
structure SimpleRect where
  p0 : ℝ × ℝ
  p1 : ℝ × ℝ

/-- The construction parameters of a TileRenderer that determine its
geometry (rendering.py lines 40-79). The page rectangle is the rect of
the pdf page (external data read from the document). -/
structure TileRendererCfg where
  page_rect : SimpleRect
  pdf_margins : SimpleRect
  dpi : ℝ
  tile_size : ℝ × ℝ

/-- Python int() applied to a float: truncation toward zero. -/
noncomputable def pyInt (r : ℝ) : ℤ := if 0 ≤ r then ⌊r⌋ else ⌈r⌉

/-- Field _crop_rect computed in TileRenderer.__init__
(rendering.py lines 67-72). -/
noncomputable def crop_rect (c : TileRendererCfg) : SimpleRect :=
  ⟨(c.page_rect.p0.1 + c.pdf_margins.p0.1,
    c.page_rect.p0.2 + c.pdf_margins.p0.2),
   (c.page_rect.p1.1 - c.pdf_margins.p1.1,
    c.page_rect.p1.2 - c.pdf_margins.p1.2)⟩

/-- Field _scale computed in TileRenderer.__init__ (rendering.py
line 73). -/
noncomputable def scale (c : TileRendererCfg) : ℝ := 1 / 72 * c.dpi

/-- Field image_size computed in TileRenderer.__init__ (rendering.py
lines 74-76): the crop rectangle size scaled, truncated by int(). -/
noncomputable def image_size (c : TileRendererCfg) : ℤ × ℤ :=
  (pyInt (((crop_rect c).p1.1 - (crop_rect c).p0.1) * scale c),
   pyInt (((crop_rect c).p1.2 - (crop_rect c).p0.2) * scale c))

/-- Field tile_count computed in TileRenderer.__init__ (rendering.py
lines 77-79): math.ceil of image_size divided by tile_size per axis. -/
noncomputable def tile_count (c : TileRendererCfg) : ℤ × ℤ :=
  (⌈((image_size c).1 : ℝ) / c.tile_size.1⌉,
   ⌈((image_size c).2 : ℝ) / c.tile_size.2⌉)

/-- Modelled from the spec: tileCount computed as
ceil(imageSize / tileSize) per axis with imageSize = cropRect.size
multiplied by dpi/72 and no integer truncation, as the claim words it. -/
noncomputable def tile_count_claim (c : TileRendererCfg) : ℤ × ℤ :=
  (⌈((crop_rect c).p1.1 - (crop_rect c).p0.1) * (c.dpi / 72) /
      c.tile_size.1⌉,
   ⌈((crop_rect c).p1.2 - (crop_rect c).p0.2) * (c.dpi / 72) /
      c.tile_size.2⌉)

/-- The clip rectangle computed by TileRenderer.render_tile
(rendering.py lines 180-190) for tile (x, y). -/
noncomputable def render_clip (c : TileRendererCfg) (x y : ℤ) : SimpleRect :=
  let x_pixels := (x : ℝ) * c.tile_size.1
  let y_pixels := (y : ℝ) * c.tile_size.2
  ⟨((crop_rect c).p0.1 + x_pixels / scale c,
    (crop_rect c).p0.2 + y_pixels / scale c),
   (min (crop_rect c).p1.1
      ((crop_rect c).p0.1 + (x_pixels + c.tile_size.1 - 1) / scale c),
    min (crop_rect c).p1.2
      ((crop_rect c).p0.2 + (y_pixels + c.tile_size.2 - 1) / scale c))⟩

/-- Tile image bytes; the pixel content of a rendered or cached tile is
opaque to the control flow modelled here, so an abstract code stands for
it. -/
abbrev TileBytes := ℕ

/-- The local file system visible to the tile cache: a partial map from
file names to contents. -/
abbrev LocalFS := String → Option TileBytes

/-- Writing a file: the map updated at one name. -/
def fsWrite (fs : LocalFS) (name : String) (b : TileBytes) : LocalFS :=
  fun m => if m = name then some b else fs m

/-- The remote cache interface of remote_cache.py (IRemoteCache), with
each operation allowed to fail (a network error raises). A successful
download yields the bytes that get written to the local path. -/
structure RemoteCacheOps where
  file_exists : String → Except PyError Bool
  upload_file : String → Except PyError Unit
  download_file : String → Except PyError TileBytes

/-- The parts of a TileRenderer that the cache chain of rendering.py uses:
the identity fields, the optional remote cache and the (deterministic)
rasterization of a tile, which stands for page.get_pixmap + tobytes on
the clip rectangle of the tile. dpi_str is the string Python interpolates
for self.dpi in the tile id. -/
structure RenderEnv where
  tileset_name : String
  dpi_str : String
  datafolder : String
  remote_cache : Option RemoteCacheOps
  render : ℤ → ℤ → TileBytes

/-- Method TileRenderer.get_tile_id (rendering.py lines 260-262). -/
def get_tile_id (env : RenderEnv) (x y : ℤ) : String :=
  "tilecache_" ++ env.tileset_name ++ "_" ++ env.dpi_str ++ "DPI_x" ++
    toString x ++ "_y" ++ toString y

/-- The local cache path of a tile (os.path.join(datafolder, id+".png")). -/
def tile_local_path (env : RenderEnv) (x y : ℤ) : String :=
  env.datafolder ++ "/" ++ get_tile_id env x y ++ ".png"

/-- The remote cache key of a tile (the f-string tiles/{tile_id}.png). -/
def tile_remote_path (env : RenderEnv) (x y : ℤ) : String :=
  "tiles/" ++ get_tile_id env x y ++ ".png"

/-- Method TileRenderer.render_tile (rendering.py lines 172-202): render
the tile, write it to the local cache, then upload it to the remote cache
if one is configured. The upload is not guarded: if it raises, the
exception propagates, but the local write has already happened, so the
updated file system is returned alongside the error. -/
def render_tile (env : RenderEnv) (fs : LocalFS) (x y : ℤ) :
    Except PyError Unit × LocalFS :=
  let buf := env.render x y
  let fs1 := fsWrite fs (tile_local_path env x y) buf
  match env.remote_cache with
  | Option.none => (.ok (), fs1)
  | some rc =>
      match rc.upload_file (tile_remote_path env x y) with
      | .ok _ => (.ok (), fs1)
      | .error e => (.error e, fs1)

/-- Opening a local file: a missing file raises FileNotFoundError. The
PIL decoding and RGBA conversion of the opened file are pure
post-processing of its bytes and are left as the identity. -/
def openLocal (fs : LocalFS) (name : String) : Except PyError TileBytes :=
  match fs name with
  | some b => .ok b
  | Option.none => .error .fileNotFoundError

/-- Method TileRenderer.get_tile (rendering.py lines 144-169): local cache
first, then the remote cache (downloading into the local cache), then a
fresh render through render_tile followed by opening the local copy. The
second component is the local file system after the call. -/
def get_tile (env : RenderEnv) (fs : LocalFS) (x y : ℤ) :
    Except PyError TileBytes × LocalFS :=
  let fname := tile_local_path env x y
  match fs fname with
  | some b => (.ok b, fs)
  | Option.none =>
    let rendered : Except PyError TileBytes × LocalFS :=
      match render_tile env fs x y with
      | (.error e, fs1) => (.error e, fs1)
      | (.ok _, fs1) => (openLocal fs1 fname, fs1)
    match env.remote_cache with
    | Option.none => rendered
    | some rc =>
        match rc.file_exists (tile_remote_path env x y) with
        | .error e => (.error e, fs)
        | .ok true =>
            match rc.download_file (tile_remote_path env x y) with
            | .error e => (.error e, fs)
            | .ok b =>
                let fs1 := fsWrite fs fname b
                (openLocal fs1 fname, fs1)
        | .ok false => rendered

/-- The list produced by Python range(a, b), as integers. -/
def intRange (a b : ℤ) : List ℤ :=
  (List.range (b - a).toNat).map (fun i => a + (i : ℤ))

/-- The distance key of get_tile_order (rendering.py lines 237-252):
euclidean distance from the tile center to the given center. -/
noncomputable def tile_dist (cx cy : ℝ) (t : ℤ × ℤ) : ℝ :=
  Real.sqrt (((t.1 : ℝ) + 0.5 - cx) * ((t.1 : ℝ) + 0.5 - cx) +
             ((t.2 : ℝ) + 0.5 - cy) * ((t.2 : ℝ) + 0.5 - cy))

/-- The sort of get_tile_order (rendering.py lines 254-257): pair each
tile with its distance key, sort ascending by the key (Python list.sort
is stable, as is mergeSort) and keep the tiles. -/
noncomputable def order_tiles_about (src_tiles : List (ℤ × ℤ)) (cx cy : ℝ) :
    List (ℤ × ℤ) :=
  ((src_tiles.map (fun t => (t, tile_dist cx cy t))).mergeSort
      (fun a b => decide (a.2 ≤ b.2))).map Prod.fst

/-- The center-coordinate defaulting of get_tile_order (rendering.py lines
233-234): cx = tile_count/2 if not center_x else center_x. A Python float
argument is falsy when it is None or equals 0. -/
noncomputable def resolve_center (half : ℝ) : Option ℝ → ℝ
  | Option.none => half
  | some v => if v = 0 then half else v

/-- The full-map tile enumeration of get_tile_order (rendering.py lines
244-252), produced when in_tiles is falsy: x-major over the whole tile
grid. -/
noncomputable def full_tile_enum (c : TileRendererCfg) : List (ℤ × ℤ) :=
  (intRange 0 (tile_count c).1).flatMap
    (fun xi => (intRange 0 (tile_count c).2).map (fun yi => (xi, yi)))

/-- Method TileRenderer.get_tile_order (rendering.py lines 225-257):
resolve the center coordinates (None or 0 falls back to half the full
map tile count), pick the tile list (a falsy in_tiles argument - None or
the empty list - falls back to the full grid) and sort it by distance to
the center. -/
noncomputable def get_tile_order (c : TileRendererCfg)
    (in_tiles : Option (List (ℤ × ℤ))) (center_x center_y : Option ℝ) :
    List (ℤ × ℤ) :=
  let cx := resolve_center (((tile_count c).1 : ℝ) / 2) center_x
  let cy := resolve_center (((tile_count c).2 : ℝ) / 2) center_y
  let src := match in_tiles with
    | some l => if l = [] then full_tile_enum c else l
    | Option.none => full_tile_enum c
  order_tiles_about src cx cy

/-- The tile-index bounds computed by get_tile_list_for_area
(rendering.py lines 103-107): floor/ceil of the query rectangle corners
measured in tiles from the margins, as (tile_x0, tile_x1, tile_y0,
tile_y1). -/
noncomputable def tile_bounds (c : TileRendererCfg) (q : SimpleRect) :
    ℤ × ℤ × ℤ × ℤ :=
  let tsz_x := c.tile_size.1 / scale c
  let tsz_y := c.tile_size.2 / scale c
  (⌊(q.p0.1 - c.pdf_margins.p0.1) / tsz_x⌋,
   ⌈(q.p1.1 - c.pdf_margins.p0.1) / tsz_x⌉,
   ⌊(q.p0.2 - c.pdf_margins.p0.2) / tsz_y⌋,
   ⌈(q.p1.2 - c.pdf_margins.p0.2) / tsz_y⌉)

/-- The tile list of get_tile_list_for_area (rendering.py lines 109-113):
y-major enumeration of the index range. -/
noncomputable def area_tile_list (c : TileRendererCfg) (q : SimpleRect) :
    List (ℤ × ℤ) :=
  let b := tile_bounds c q
  (intRange b.2.2.1 b.2.2.2).flatMap
    (fun ty => (intRange b.1 b.2.1).map (fun tx => (tx, ty)))

/-- The return value of get_tile_list_for_area: the ordered tile list,
the pixel cropping, the result image size and the tile index range. -/
structure TileAreaResult where
  ordered_tile_list : List (ℤ × ℤ)
  cropping : (ℤ × ℤ) × (ℤ × ℤ)
  image_size : ℤ × ℤ
  tile_range : ℤ × ℤ × ℤ × ℤ

/-- Method TileRenderer.get_tile_list_for_area (rendering.py lines
92-141): the tiles covering the query rectangle ordered through
get_tile_order around the index-range midpoint, the edge cropping in
pixels, and the result image size. -/
noncomputable def get_tile_list_for_area (c : TileRendererCfg)
    (q : SimpleRect) : TileAreaResult :=
  let tsz_x := c.tile_size.1 / scale c
  let tsz_y := c.tile_size.2 / scale c
  let b := tile_bounds c q
  let tile_x0 := b.1
  let tile_x1 := b.2.1
  let tile_y0 := b.2.2.1
  let tile_y1 := b.2.2.2
  let ordered := get_tile_order c (some (area_tile_list c q))
    (some (((tile_x1 : ℝ) + (tile_x0 : ℝ)) / 2))
    (some (((tile_y1 : ℝ) + (tile_y0 : ℝ)) / 2))
  let tileright :=
    min (crop_rect c).p1.1 ((crop_rect c).p0.1 + (tile_x1 : ℝ) * tsz_x)
  let tilebottom :=
    min (crop_rect c).p1.2 ((crop_rect c).p0.2 + (tile_y1 : ℝ) * tsz_y)
  let crop_pdf_p0 :=
    (max 0 ((q.p0.1 - (crop_rect c).p0.1) - (tile_x0 : ℝ) * tsz_x),
     max 0 ((q.p0.2 - (crop_rect c).p0.2) - (tile_y0 : ℝ) * tsz_y))
  let crop_pdf_p1 :=
    (max 0 (tileright - q.p1.1), max 0 (tilebottom - q.p1.2))
  { ordered_tile_list := ordered
    cropping := ((pyInt (crop_pdf_p0.1 * scale c),
                  pyInt (crop_pdf_p0.2 * scale c)),
                 (pyInt (crop_pdf_p1.1 * scale c),
                  pyInt (crop_pdf_p1.2 * scale c)))
    image_size := (pyInt ((q.p1.1 - q.p0.1) * scale c),
                   pyInt ((q.p1.2 - q.p0.2) * scale c))
    tile_range := b }

/-- A concrete route whose projection is the identity and whose four
stored matrices are the identity matrix, for evaluating project_point at
specific inputs. -/
def idRoute : RouteData :=
  ⟨fun a b => (a, b), fun a b => (a, b), 1, 1, 1, 1⟩

/-- A concrete leg whose two stored matrices are the identity matrix. -/
def idLeg : LegData := ⟨1, 1⟩

/-- A remote cache whose existence check finds nothing and whose transfer
operations fail with a connection error. -/
def failingUploadRC : RemoteCacheOps :=
  ⟨fun _ => .ok false, fun _ => .error .connectionError,
   fun _ => .error .connectionError⟩

/-- A concrete renderer environment wired to the failing remote cache. -/
def envUploadFails : RenderEnv :=
  ⟨"lhcc", "600.0", "data", some failingUploadRC, fun _ _ => 7⟩

/-- An empty local file system. -/
def emptyFS : LocalFS := fun _ => Option.none

/-- The 3-row correspondence matrix that
_calculate_2d_transformation_matrix builds from three points. -/
def rows3 (a b c : ℝ × ℝ) : Mat3 :=
  Matrix.of ![homRow a, homRow b, homRow c]

/-- The matrix fit_leg_transform produces for exactly two correspondences,
after the synthetic third pair is appended. -/
noncomputable def legFitMat (s0 s1 d0 d1 : ℝ × ℝ) : Mat3 :=
  (((rows3 s0 s1 (_rotate_point s0 s1 (-90))).transpose *
      rows3 s0 s1 (_rotate_point s0 s1 (-90)))⁻¹ *
    ((rows3 s0 s1 (_rotate_point s0 s1 (-90))).transpose *
      rows3 d0 d1 (_rotate_point d0 d1 90))).transpose

/-- The (singular) matrix fitted from degenerate destination
correspondences, used to exhibit the partial state update of
calc_transformations. -/
noncomputable def singularFitF : Mat3 := legFitMat (0, 0) (1, 0) (0, 0) (0, 0)

/-- A concrete renderer configuration: a 512.5-unit square crop at the
reference DPI with 512-pixel tiles. -/
noncomputable def cfgHalf : TileRendererCfg :=
  ⟨⟨(0, 0), (512.5, 512.5)⟩, ⟨(0, 0), (0, 0)⟩, 72, (512, 512)⟩

/-- The renderer configuration of the spec scenario: a 3000 x 2000-unit
crop at 600 DPI with 512-pixel tiles. -/
noncomputable def cfgScenario : TileRendererCfg :=
  ⟨⟨(0, 0), (3400, 2400)⟩, ⟨(200, 200), (200, 200)⟩, 600, (512, 512)⟩

/-- A renderer configuration with a 3000 x 2000 crop at the reference DPI
(scale 1) and 512-pixel tiles. -/
noncomputable def cfgRef : TileRendererCfg :=
  ⟨⟨(0, 0), (3000, 2000)⟩, ⟨(0, 0), (0, 0)⟩, 72, (512, 512)⟩

/-- A renderer configuration paired below with a query rectangle whose
tile index range is symmetric around zero on both axes. -/
noncomputable def cfgSym : TileRendererCfg :=
  ⟨⟨(0, 0), (1024, 1024)⟩, ⟨(100, 100), (0, 0)⟩, 72, (512, 512)⟩

/-- A query rectangle whose tile index range under cfgSym is (-1, 1) on
both axes, so the index-range midpoint is exactly zero. -/
noncomputable def qSym : SimpleRect := ⟨(-412, -412), (612, 612)⟩

end VFR

namespace VFR

/-- Binding an error short-circuits in the Except monad. -/
@[simp] theorem pyerr_bind {α β : Type} (e : PyError)
    (f : α → Except PyError β) :
    ((Except.error e : Except PyError α) >>= f) = Except.error e := rfl

/-- Binding a success applies the continuation in the Except monad. -/
@[simp] theorem pyok_bind {α β : Type} (a : α) (f : α → Except PyError β) :
    ((Except.ok a : Except PyError α) >>= f) = f a := rfl

/-- Mapping over an error leaves it unchanged. -/
@[simp] theorem pyerr_map {α β : Type} (e : PyError) (f : α → β) :
    (Except.error e : Except PyError α).map f = Except.error e := rfl

/-- Mapping over a success applies the function. -/
@[simp] theorem pyok_map {α β : Type} (a : α) (f : α → β) :
    (Except.ok a : Except PyError α).map f = Except.ok (f a) := rfl

/-- Pure in the Except monad is ok. -/
@[simp] theorem pypure_eq {α : Type} (a : α) :
    (pure a : Except PyError α) = Except.ok a := rfl

/-- Attribute projection of the point constructor. -/
@[simp] theorem VFRPoint.x_mk (a b : ℝ) (c : VFRCoordSystem)
    (r : Option RouteData) (l : LegSlot) :
    (VFRPoint.mk a b c r l).x = a := rfl

/-- Attribute projection of the point constructor. -/
@[simp] theorem VFRPoint.y_mk (a b : ℝ) (c : VFRCoordSystem)
    (r : Option RouteData) (l : LegSlot) :
    (VFRPoint.mk a b c r l).y = b := rfl

/-- Attribute projection of the point constructor. -/
@[simp] theorem VFRPoint.coord_system_mk (a b : ℝ) (c : VFRCoordSystem)
    (r : Option RouteData) (l : LegSlot) :
    (VFRPoint.mk a b c r l).coord_system = c := rfl

/-- Attribute projection of the point constructor. -/
@[simp] theorem VFRPoint.route_mk (a b : ℝ) (c : VFRCoordSystem)
    (r : Option RouteData) (l : LegSlot) :
    (VFRPoint.mk a b c r l).route = r := rfl

/-- Attribute projection of the point constructor. -/
@[simp] theorem VFRPoint.leg_mk (a b : ℝ) (c : VFRCoordSystem)
    (r : Option RouteData) (l : LegSlot) :
    (VFRPoint.mk a b c r l).leg = l := rfl

/-- Truthiness of the empty leg slot. -/
@[simp] theorem LegSlot.truthy_none : LegSlot.none.truthy = false := rfl

/-- Truthiness of a leg-valued slot. -/
@[simp] theorem LegSlot.truthy_leg (l : LegData) :
    (LegSlot.leg l).truthy = true := rfl

/-- Truthiness of a point-valued slot. -/
@[simp] theorem LegSlot.truthy_point (p : VFRPoint) :
    (LegSlot.point p).truthy = true := rfl

/-- A failing route attribute read can only raise AttributeError. -/
theorem getRoute_error_attr {r : Option RouteData} {e : PyError}
    (h : getRoute r = .error e) : e = .attributeError := by
  cases r <;> simp [getRoute] at h
  exact h.symm

/-- A failing leg matrix read can only raise AttributeError. -/
theorem legC2F_error_attr {l : LegSlot} {e : PyError}
    (h : l.matrix_cropmap2func = .error e) : e = .attributeError := by
  cases l <;> simp [LegSlot.matrix_cropmap2func] at h <;> exact h.symm

/-- A failing leg matrix read can only raise AttributeError. -/
theorem legF2C_error_attr {l : LegSlot} {e : PyError}
    (h : l.matrix_func2cropmap = .error e) : e = .attributeError := by
  cases l <;> simp [LegSlot.matrix_func2cropmap] at h <;> exact h.symm

/-- The LONLAT down-step can only raise AttributeError. -/
theorem stepD_lonlat_error_attr {r : Option RouteData} {t : VFRCoordSystem}
    {s : ProjSt} {e : PyError} (h : stepD_lonlat r t s = .error e) :
    e = .attributeError := by
  unfold stepD_lonlat at h
  split at h
  · cases hr : getRoute r with
    | error e2 => rw [hr] at h; simp at h; exact h ▸ getRoute_error_attr hr
    | ok rr => rw [hr] at h; simp at h
  · simp at h

/-- The FULL_WORLD_XY down-step can only raise AttributeError. -/
theorem stepD_fullworld_error_attr {r : Option RouteData}
    {t : VFRCoordSystem} {s : ProjSt} {e : PyError}
    (h : stepD_fullworld r t s = .error e) : e = .attributeError := by
  unfold stepD_fullworld at h
  split at h
  · cases hr : getRoute r with
    | error e2 => rw [hr] at h; simp at h; exact h ▸ getRoute_error_attr hr
    | ok rr => rw [hr] at h; simp at h
  · simp at h

/-- The MAP_XY down-step can only raise AttributeError. -/
theorem stepD_map_error_attr {r : Option RouteData} {t : VFRCoordSystem}
    {s : ProjSt} {e : PyError} (h : stepD_map r t s = .error e) :
    e = .attributeError := by
  unfold stepD_map at h
  split at h
  · cases hr : getRoute r with
    | error e2 => rw [hr] at h; simp at h; exact h ▸ getRoute_error_attr hr
    | ok rr => rw [hr] at h; simp at h
  · simp at h

/-- The MAPCROP_XY down-step can only raise AttributeError. -/
theorem stepD_mapcrop_error_attr {l : LegSlot} {t : VFRCoordSystem}
    {s : ProjSt} {e : PyError} (h : stepD_mapcrop l t s = .error e) :
    e = .attributeError := by
  unfold stepD_mapcrop at h
  split at h
  · cases hl : l.matrix_cropmap2func with
    | error e2 => rw [hl] at h; simp at h; exact h ▸ legC2F_error_attr hl
    | ok m => rw [hl] at h; simp at h
  · simp at h

/-- The FUNCTION up-step can only raise AttributeError. -/
theorem stepU_function_error_attr {l : LegSlot} {t : VFRCoordSystem}
    {s : ProjSt} {e : PyError} (h : stepU_function l t s = .error e) :
    e = .attributeError := by
  unfold stepU_function at h
  split at h
  · cases hl : l.matrix_func2cropmap with
    | error e2 => rw [hl] at h; simp at h; exact h ▸ legF2C_error_attr hl
    | ok m => rw [hl] at h; simp at h
  · simp at h

/-- The MAPCROP_XY up-step can only raise AttributeError. -/
theorem stepU_mapcrop_error_attr {r : Option RouteData} {t : VFRCoordSystem}
    {s : ProjSt} {e : PyError} (h : stepU_mapcrop r t s = .error e) :
    e = .attributeError := by
  unfold stepU_mapcrop at h
  split at h
  · cases hr : getRoute r with
    | error e2 => rw [hr] at h; simp at h; exact h ▸ getRoute_error_attr hr
    | ok rr => rw [hr] at h; simp at h
  · simp at h

/-- The MAP_XY up-step can only raise AttributeError. -/
theorem stepU_map_error_attr {r : Option RouteData} {t : VFRCoordSystem}
    {s : ProjSt} {e : PyError} (h : stepU_map r t s = .error e) :
    e = .attributeError := by
  unfold stepU_map at h
  split at h
  · cases hr : getRoute r with
    | error e2 => rw [hr] at h; simp at h; exact h ▸ getRoute_error_attr hr
    | ok rr => rw [hr] at h; simp at h
  · simp at h

/-- The FULL_WORLD_XY up-step can only raise AttributeError. -/
theorem stepU_fullworld_error_attr {r : Option RouteData}
    {t : VFRCoordSystem} {s : ProjSt} {e : PyError}
    (h : stepU_fullworld r t s = .error e) : e = .attributeError := by
  unfold stepU_fullworld at h
  split at h
  · cases hr : getRoute r with
    | error e2 => rw [hr] at h; simp at h; exact h ▸ getRoute_error_attr hr
    | ok rr => rw [hr] at h; simp at h
  · simp at h

/-- The downward conversion chain can only raise AttributeError. -/
theorem down_convert_error_attr {r : Option RouteData} {l : LegSlot}
    {t : VFRCoordSystem} {s0 : ProjSt} {e : PyError}
    (h : down_convert r l t s0 = .error e) : e = .attributeError := by
  unfold down_convert at h
  cases h1 : stepD_lonlat r t s0 with
  | error e1 => rw [h1] at h; simp at h; exact h ▸ stepD_lonlat_error_attr h1
  | ok s1 =>
    rw [h1] at h; simp at h
    cases h2 : stepD_fullworld r t s1 with
    | error e2 =>
        rw [h2] at h; simp at h; exact h ▸ stepD_fullworld_error_attr h2
    | ok s2 =>
      rw [h2] at h; simp at h
      cases h3 : stepD_map r t s2 with
      | error e3 => rw [h3] at h; simp at h; exact h ▸ stepD_map_error_attr h3
      | ok s3 =>
        rw [h3] at h; simp at h
        exact stepD_mapcrop_error_attr h

/-- The upward conversion chain can only raise AttributeError. -/
theorem up_convert_error_attr {r : Option RouteData} {l : LegSlot}
    {t : VFRCoordSystem} {s0 : ProjSt} {e : PyError}
    (h : up_convert r l t s0 = .error e) : e = .attributeError := by
  unfold up_convert at h
  cases h1 : stepU_function l t s0 with
  | error e1 =>
      rw [h1] at h; simp at h; exact h ▸ stepU_function_error_attr h1
  | ok s1 =>
    rw [h1] at h; simp at h
    cases h2 : stepU_mapcrop r t s1 with
    | error e2 =>
        rw [h2] at h; simp at h; exact h ▸ stepU_mapcrop_error_attr h2
    | ok s2 =>
      rw [h2] at h; simp at h
      cases h3 : stepU_map r t s2 with
      | error e3 => rw [h3] at h; simp at h; exact h ▸ stepU_map_error_attr h3
      | ok s3 =>
        rw [h3] at h; simp at h
        exact stepU_fullworld_error_attr h

/-- C3: project_point fails with the missing-leg-reference ValueError
exactly when the point has no leg reference and the source or target
coordinate system is the FUNCTION (Curve) space; the error is returned to
the caller, and no other input produces this error (other failures
surface as AttributeError). -/
theorem project_point_missing_leg_iff (p : VFRPoint) (t : VFRCoordSystem) :
    p.project_point t = .error .valueError ↔
      (p.leg = .none ∧ (p.coord_system = .FUNCTION ∨ t = .FUNCTION)) := by
  constructor
  · intro h
    unfold VFRPoint.project_point at h
    split at h
    · rename_i hg
      refine ⟨?_, hg.2⟩
      cases hl : p.leg <;> simp [hl] at hg ⊢
    · split at h
      · simp at h
      · split at h
        · cases hd : down_convert p.route p.leg t ⟨p.x, p.y, p.coord_system⟩
            with
          | error e =>
              rw [hd] at h; simp at h
              exact absurd (h ▸ down_convert_error_attr hd) (by simp)
          | ok s => rw [hd] at h; simp at h
        · cases hu : up_convert p.route p.leg t ⟨p.x, p.y, p.coord_system⟩
            with
          | error e =>
              rw [hu] at h; simp at h
              exact absurd (h ▸ up_convert_error_attr hu) (by simp)
          | ok s => rw [hu] at h; simp at h
  · intro hc
    unfold VFRPoint.project_point
    rw [if_pos ⟨by rw [hc.1]; rfl, hc.2⟩]

/-- C1: the round-trip property fails on the adjacent pair
(Curve, CroppedRaster). For the point (0, 0) in FUNCTION space carrying a
route and a leg whose matrices are identities, projecting to MAPCROP_XY
and back raises AttributeError instead of returning the point: the
intermediate point stores the original point object - not the leg - in
its leg slot, so the matrix lookup of the second conversion fails. -/
theorem roundtrip_curve_croppedraster_raises :
    ((VFRPoint.mk 0 0 .FUNCTION (some idRoute) (.leg idLeg)).project_point
        .MAPCROP_XY >>= fun q => q.project_point .FUNCTION) =
      .error .attributeError := by
  simp [VFRPoint.project_point, up_convert, down_convert, stepU_function,
    stepU_mapcrop, stepU_map, stepU_fullworld, stepD_lonlat,
    stepD_fullworld, stepD_map, stepD_mapcrop,
    LegSlot.matrix_func2cropmap, LegSlot.matrix_cropmap2func,
    VFRCoordSystem.value, idLeg]

/-- C2: the point produced by project_point does not carry the same leg
reference as the source point. Projecting the point (1, 2) from MAP_XY
(with no leg reference) one step to MAPCROP_XY succeeds, but the result
holds the source point object itself in its leg slot, which differs from
the source's (empty) leg reference. -/
theorem project_point_leg_slot_holds_point :
    (((VFRPoint.mk 1 2 .MAP_XY (some idRoute) .none).project_point
        .MAPCROP_XY).map VFRPoint.leg) =
      .ok (.point (VFRPoint.mk 1 2 .MAP_XY (some idRoute) .none)) ∧
    LegSlot.point (VFRPoint.mk 1 2 .MAP_XY (some idRoute) .none) ≠
      (VFRPoint.mk 1 2 .MAP_XY (some idRoute) .none).leg := by
  constructor
  · simp [VFRPoint.project_point, down_convert, stepD_lonlat,
      stepD_fullworld, stepD_map, stepD_mapcrop, getRoute,
      VFRCoordSystem.value, idRoute]
  · simp

/-- Closed form of _rotate_point at -90 degrees. -/
theorem rotate_neg90 (p c : ℝ × ℝ) :
    _rotate_point p c (-90) = (c.1 + (p.2 - c.2), c.2 - (p.1 - c.1)) := by
  unfold _rotate_point
  have h : (-90 : ℝ) * Real.pi / 180 = -(Real.pi / 2) := by ring
  rw [h, Real.cos_neg, Real.sin_neg, Real.cos_pi_div_two,
    Real.sin_pi_div_two]
  exact Prod.ext (by ring) (by ring)

/-- Closed form of _rotate_point at +90 degrees. -/
theorem rotate_pos90 (p c : ℝ × ℝ) :
    _rotate_point p c 90 = (c.1 - (p.2 - c.2), c.2 + (p.1 - c.1)) := by
  unfold _rotate_point
  have h : (90 : ℝ) * Real.pi / 180 = Real.pi / 2 := by ring
  rw [h, Real.cos_pi_div_two, Real.sin_pi_div_two]
  exact Prod.ext (by ring) (by ring)

/-- The fit on exactly three correspondences, written with the row
matrices of the two point triples. -/
theorem calc_three (a b c d e f : ℝ × ℝ) :
    _calculate_2d_transformation_matrix [a, b, c] [d, e, f] =
      Except.ok ((((rows3 a b c).transpose * rows3 a b c)⁻¹ *
        ((rows3 a b c).transpose * rows3 d e f)).transpose) := by
  unfold _calculate_2d_transformation_matrix
  rw [if_pos (by simp)]
  have hA : (Matrix.of fun (i : Fin ([a, b, c] : List (ℝ × ℝ)).length)
      (j : Fin 3) => homRow (([a, b, c] : List (ℝ × ℝ)).getD i.val (0, 0)) j)
      = rows3 a b c := by
    funext i j
    fin_cases i <;> rfl
  have hB : (Matrix.of fun (i : Fin ([a, b, c] : List (ℝ × ℝ)).length)
      (j : Fin 3) => homRow (([d, e, f] : List (ℝ × ℝ)).getD i.val (0, 0)) j)
      = rows3 d e f := by
    funext i j
    fin_cases i <;> rfl
  rw [hA, hB]

/-- The two-correspondence fit evaluates to legFitMat. -/
theorem fit_two_eq (s0 s1 d0 d1 : ℝ × ℝ) :
    fit_leg_transform [s0, s1] [d0, d1] =
      Except.ok (legFitMat s0 s1 d0 d1) := by
  unfold fit_leg_transform
  rw [show synthesize_correspondences [s0, s1] [d0, d1] =
      Except.ok ([s0, s1, _rotate_point s0 s1 (-90)],
                 [d0, d1, _rotate_point d0 d1 90]) from by
    simp [synthesize_correspondences]]
  rw [pyok_bind]
  exact calc_three s0 s1 (_rotate_point s0 s1 (-90)) d0 d1
    (_rotate_point d0 d1 90)

/-- When the source row matrix is invertible, the normal-equation
least-squares transform maps each source row exactly onto the
corresponding destination row. -/
theorem fit_maps_rows (A B : Mat3) (hA : IsUnit A.det) (i : Fin 3) :
    (((A.transpose * A)⁻¹ * (A.transpose * B)).transpose).mulVec
        (fun j => A i j) = fun j => B i j := by
  have hAt : IsUnit A.transpose.det := by rwa [Matrix.det_transpose]
  have h2 : (A.transpose * A)⁻¹ * (A.transpose * B) = A⁻¹ * B := by
    rw [Matrix.mul_inv_rev, Matrix.mul_assoc,
      ← Matrix.mul_assoc A.transpose⁻¹ A.transpose B,
      Matrix.nonsing_inv_mul _ hAt, Matrix.one_mul]
  rw [h2, Matrix.transpose_mul, Matrix.transpose_nonsing_inv]
  have hrow : (fun j => A i j) = A.transpose.mulVec (Pi.single i 1) := by
    rw [Matrix.mulVec_single]
    funext j
    simp [Matrix.transpose]
  rw [hrow, Matrix.mulVec_mulVec, Matrix.mul_assoc,
    Matrix.nonsing_inv_mul _ hAt, Matrix.mul_one, Matrix.mulVec_single]
  funext j
  simp [Matrix.transpose]

/-- Determinant of the synthesized row matrix in closed form. -/
theorem det_rows3_synth_eq (s0 s1 : ℝ × ℝ) :
    (rows3 s0 s1 (s1.1 + (s0.2 - s1.2), s1.2 - (s0.1 - s1.1))).det
      = (s1.1 - s0.1) ^ 2 + (s1.2 - s0.2) ^ 2 := by
  rw [Matrix.det_fin_three]
  show s0.1 * s1.2 * 1 - s0.1 * 1 * (s1.2 - (s0.1 - s1.1)) -
      s0.2 * s1.1 * 1 + s0.2 * 1 * (s1.1 + (s0.2 - s1.2)) +
      1 * s1.1 * (s1.2 - (s0.1 - s1.1)) - 1 * s1.2 * (s1.1 + (s0.2 - s1.2))
      = (s1.1 - s0.1) ^ 2 + (s1.2 - s0.2) ^ 2
  ring

/-- The row matrix of two distinct points and their synthesized third
point is invertible: its determinant is the squared distance of the two
points. -/
theorem det_rows3_synth (s0 s1 : ℝ × ℝ) (h : s0 ≠ s1) :
    IsUnit (rows3 s0 s1 (_rotate_point s0 s1 (-90))).det := by
  rw [rotate_neg90]
  rw [det_rows3_synth_eq, isUnit_iff_ne_zero]
  intro hz
  apply h
  have h1 : s1.1 - s0.1 = 0 ∧ s1.2 - s0.2 = 0 := by
    constructor <;> nlinarith [sq_nonneg (s1.1 - s0.1), sq_nonneg (s1.2 - s0.2)]
  exact Prod.ext (by linarith [h1.1]) (by linarith [h1.2])

/-- The homogeneous row vector of a point equals the corresponding row of
the row matrix. -/
theorem homRow_eq_rows3_row0 (a b c : ℝ × ℝ) :
    (fun j => rows3 a b c 0 j) = homRow a := by
  funext j
  rfl

/-- The homogeneous row vector of a point equals the corresponding row of
the row matrix. -/
theorem homRow_eq_rows3_row1 (a b c : ℝ × ℝ) :
    (fun j => rows3 a b c 1 j) = homRow b := by
  funext j
  rfl

/-- Applying legFitMat maps the two original source points exactly onto
their destination points (given distinct sources). -/
theorem legFitMat_maps (s0 s1 d0 d1 : ℝ × ℝ) (h : s0 ≠ s1) :
    _apply_transformation_matrix s0 (legFitMat s0 s1 d0 d1) = d0 ∧
    _apply_transformation_matrix s1 (legFitMat s0 s1 d0 d1) = d1 := by
  have hA := det_rows3_synth s0 s1 h
  have h0 := fit_maps_rows (rows3 s0 s1 (_rotate_point s0 s1 (-90)))
    (rows3 d0 d1 (_rotate_point d0 d1 90)) hA 0
  have h1 := fit_maps_rows (rows3 s0 s1 (_rotate_point s0 s1 (-90)))
    (rows3 d0 d1 (_rotate_point d0 d1 90)) hA 1
  rw [homRow_eq_rows3_row0] at h0
  rw [homRow_eq_rows3_row1] at h1
  constructor
  · show ((legFitMat s0 s1 d0 d1).mulVec ![s0.1, s0.2, 1] 0,
          (legFitMat s0 s1 d0 d1).mulVec ![s0.1, s0.2, 1] 1) = d0
    have hv : (![s0.1, s0.2, 1] : Fin 3 → ℝ) = homRow s0 := rfl
    rw [hv, show (legFitMat s0 s1 d0 d1).mulVec (homRow s0) =
        fun j => rows3 d0 d1 (_rotate_point d0 d1 90) 0 j from h0]
    exact Prod.ext rfl rfl
  · show ((legFitMat s0 s1 d0 d1).mulVec ![s1.1, s1.2, 1] 0,
          (legFitMat s0 s1 d0 d1).mulVec ![s1.1, s1.2, 1] 1) = d1
    have hv : (![s1.1, s1.2, 1] : Fin 3 → ℝ) = homRow s1 := rfl
    rw [hv, show (legFitMat s0 s1 d0 d1).mulVec (homRow s1) =
        fun j => rows3 d0 d1 (_rotate_point d0 d1 90) 1 j from h1]
    exact Prod.ext rfl rfl

/-- C5: for two distinct correspondences, the least-squares affine
transform fitted after appending the synthetic third point maps both
original source points exactly onto their destination points. -/
theorem fit_two_correspondences_exact (s0 s1 d0 d1 : ℝ × ℝ)
    (h : s0 ≠ s1) :
    fit_leg_transform [s0, s1] [d0, d1] =
        Except.ok (legFitMat s0 s1 d0 d1) ∧
      _apply_transformation_matrix s0 (legFitMat s0 s1 d0 d1) = d0 ∧
      _apply_transformation_matrix s1 (legFitMat s0 s1 d0 d1) = d1 :=
  ⟨fit_two_eq s0 s1 d0 d1, legFitMat_maps s0 s1 d0 d1 h⟩

/-- Witness instantiating the two-correspondence exact-fit theorem at
concrete points. -/
theorem fit_two_correspondences_exact_witness :
    ((0, 0) : ℝ × ℝ) ≠ (1, 0) ∧
      (fit_leg_transform [((0 : ℝ), 0), (1, 0)] [((2 : ℝ), 3), (4, 5)] =
          Except.ok (legFitMat (0, 0) (1, 0) (2, 3) (4, 5)) ∧
        _apply_transformation_matrix (0, 0)
          (legFitMat (0, 0) (1, 0) (2, 3) (4, 5)) = (2, 3) ∧
        _apply_transformation_matrix (1, 0)
          (legFitMat (0, 0) (1, 0) (2, 3) (4, 5)) = (4, 5)) :=
  ⟨by norm_num [Prod.ext_iff],
   fit_two_correspondences_exact (0, 0) (1, 0) (2, 3) (4, 5)
     (by norm_num [Prod.ext_iff])⟩

/-- C4 counterexample: with the two correspondences (0,0) -> (0,0) and
(1,0) -> (1,0), calc_transformations appends the third pair
((1,1), (1,-1)): the first point rotated around the second. The claim's
construction - the second point rotated around the first - would give
((0,-1), (0,1)), a different pair in both spaces. -/
theorem synth_third_differs_from_claim :
    synthesize_correspondences [((0 : ℝ), 0), (1, 0)] [((0 : ℝ), 0), (1, 0)]
        = Except.ok ([((0 : ℝ), 0), (1, 0), (1, 1)],
                     [((0 : ℝ), 0), (1, 0), (1, -1)]) ∧
      _rotate_point (1, 0) (0, 0) (-90) = ((0 : ℝ), -1) ∧
      _rotate_point (1, 0) (0, 0) 90 = ((0 : ℝ), 1) ∧
      (((1 : ℝ), (1 : ℝ)) : ℝ × ℝ) ≠ ((0 : ℝ), -1) ∧
      (((1 : ℝ), (-1 : ℝ)) : ℝ × ℝ) ≠ ((0 : ℝ), 1) := by
  refine ⟨?_, ?_, ?_, ?_, ?_⟩
  · rw [show synthesize_correspondences [((0 : ℝ), 0), (1, 0)]
        [((0 : ℝ), 0), (1, 0)] =
        Except.ok ([((0 : ℝ), 0), (1, 0),
                      _rotate_point ((0 : ℝ), 0) ((1 : ℝ), 0) (-90)],
                   [((0 : ℝ), 0), (1, 0),
                      _rotate_point ((0 : ℝ), 0) ((1 : ℝ), 0) 90]) from by
      simp [synthesize_correspondences]]
    rw [rotate_neg90, rotate_pos90]
    norm_num
  · rw [rotate_neg90]; norm_num
  · rw [rotate_pos90]; norm_num
  · norm_num [Prod.ext_iff]
  · norm_num [Prod.ext_iff]

/-- C4 amended: for exactly two correspondences the synthesized third
pair is the FIRST point rotated by -90 degrees around the SECOND point in
curve space, paired with the FIRST point rotated by +90 degrees around
the SECOND point in raster space (shown in closed form). -/
theorem synth_third_rotates_first_around_second (s0 s1 d0 d1 : ℝ × ℝ) :
    synthesize_correspondences [s0, s1] [d0, d1] =
      Except.ok ([s0, s1, (s1.1 + (s0.2 - s1.2), s1.2 - (s0.1 - s1.1))],
                 [d0, d1, (d1.1 - (d0.2 - d1.2), d1.2 + (d0.1 - d1.1))]) := by
  rw [show synthesize_correspondences [s0, s1] [d0, d1] =
      Except.ok ([s0, s1, _rotate_point s0 s1 (-90)],
                 [d0, d1, _rotate_point d0 d1 90]) from by
    simp [synthesize_correspondences]]
  rw [rotate_neg90, rotate_pos90]

/-- The matrix fitted from the degenerate destination list is singular:
all three destination rows coincide. -/
theorem singularFitF_det : singularFitF.det = 0 := by
  unfold singularFitF legFitMat
  rw [Matrix.det_transpose, Matrix.det_mul, Matrix.det_mul]
  have hB : (rows3 ((0 : ℝ), 0) ((0 : ℝ), 0)
      (_rotate_point ((0 : ℝ), 0) ((0 : ℝ), 0) 90)).det = 0 := by
    rw [rotate_pos90, Matrix.det_fin_three]
    norm_num
    show (0 : ℝ) * 0 * 1 - 0 * 1 * 0 - 0 * 0 * 1 + 0 * 1 * 0 +
        1 * 0 * 0 - 1 * 0 * 0 = 0
    ring
  rw [hB]
  ring

/-- C6 counterexample: for the degenerate input whose two destination
points coincide, the affine solve succeeds with a singular matrix, so the
inversion fails; starting from the stored identity pair, the update then
stores the new singular forward matrix next to the old inverse - the
state is changed and the pair is mismatched, contrary to the claim. -/
theorem update_changes_forward_on_singular_fit :
    fit_leg_transform [((0 : ℝ), 0), (1, 0)] [((0 : ℝ), 0), (0, 0)] =
        Except.ok singularFitF ∧
      singularFitF.det = 0 ∧
      calc_transformations_update [((0 : ℝ), 0), (1, 0)]
          [((0 : ℝ), 0), (0, 0)] ⟨1, 1⟩ = ⟨singularFitF, 1⟩ ∧
      singularFitF ≠ 1 := by
  have hfit : fit_leg_transform [((0 : ℝ), 0), (1, 0)]
      [((0 : ℝ), 0), (0, 0)] = Except.ok singularFitF :=
    fit_two_eq (0, 0) (1, 0) (0, 0) (0, 0)
  have hne : singularFitF ≠ 1 := by
    intro h1
    have hm := (legFitMat_maps (0, 0) (1, 0) (0, 0) (0, 0)
      (by norm_num [Prod.ext_iff])).2
    rw [show legFitMat ((0 : ℝ), 0) (1, 0) (0, 0) (0, 0) = singularFitF
        from rfl, h1] at hm
    have happ : _apply_transformation_matrix ((1 : ℝ), 0) 1 = ((1 : ℝ), 0) := by
      simp [_apply_transformation_matrix, Matrix.one_mulVec]
    rw [happ] at hm
    exact absurd (congrArg Prod.fst hm) (by norm_num)
  refine ⟨hfit, singularFitF_det, ?_, hne⟩
  unfold calc_transformations_update
  rw [hfit]
  exact if_pos singularFitF_det

/-- C6 amended: if the affine solve itself raises, the update leaves both
stored matrices unchanged; if the solve succeeds but the fitted matrix is
singular (so its inversion raises), the forward matrix takes the new
singular fit while only the inverse retains its previous value. -/
theorem update_on_failure_paths (sp dp : List (ℝ × ℝ))
    (old : LegMatrices) :
    (∀ e, fit_leg_transform sp dp = .error e →
      calc_transformations_update sp dp old = old) ∧
    (∀ F, fit_leg_transform sp dp = .ok F → F.det = 0 →
      calc_transformations_update sp dp old =
        ⟨F, old.matrix_cropmap2func⟩) := by
  constructor
  · intro e he
    unfold calc_transformations_update
    rw [he]
  · intro F hF hdet
    unfold calc_transformations_update
    rw [hF]
    exact if_pos hdet

/-- Witness instantiating the failure-path theorem: on the empty input
the fit raises IndexError and the stored pair is unchanged. -/
theorem update_on_failure_paths_witness :
    calc_transformations_update ([] : List (ℝ × ℝ)) [] ⟨1, 1⟩ = ⟨1, 1⟩ :=
  (update_on_failure_paths [] [] ⟨1, 1⟩).1 .indexError (by
    simp [fit_leg_transform, synthesize_correspondences])

/-- C7 counterexample: with an empty local cache, a remote cache whose
existence check reports a miss and whose upload raises, get_tile
propagates the connection error instead of returning the freshly
rendered tile - even though the rendered tile was already written to the
local cache (second conjunct). -/
theorem get_tile_upload_failure_raises :
    (get_tile envUploadFails emptyFS 0 0).1 =
        Except.error .connectionError ∧
      (get_tile envUploadFails emptyFS 0 0).2
          (tile_local_path envUploadFails 0 0) =
        some (envUploadFails.render 0 0) := by
  constructor <;>
    simp [get_tile, render_tile, envUploadFails, emptyFS, failingUploadRC,
      openLocal, fsWrite, tile_local_path, tile_remote_path, get_tile_id]

/-- C7 amended: after a genuine cache miss, if the tile renders and the
local write succeeds but the remote upload raises, get_tile fails with
the upload error rather than returning the tile; the rendered tile is
nevertheless in the local cache afterwards, so an immediate retry
returns it. -/
theorem get_tile_upload_failure_behavior (env : RenderEnv) (fs : LocalFS)
    (x y : ℤ) (rc : RemoteCacheOps) (e : PyError)
    (henv : env.remote_cache = some rc)
    (hmiss : fs (tile_local_path env x y) = Option.none)
    (hexist : rc.file_exists (tile_remote_path env x y) = .ok false)
    (hup : rc.upload_file (tile_remote_path env x y) = .error e) :
    (get_tile env fs x y).1 = Except.error e ∧
      (get_tile env fs x y).2 (tile_local_path env x y) =
        some (env.render x y) ∧
      (get_tile env ((get_tile env fs x y).2) x y).1 =
        Except.ok (env.render x y) := by
  have hfirst : get_tile env fs x y =
      (Except.error e,
       fsWrite fs (tile_local_path env x y) (env.render x y)) := by
    unfold get_tile render_tile
    simp only [hmiss, henv, hexist, hup]
  refine ⟨by rw [hfirst], ?_, ?_⟩
  · rw [hfirst]
    simp [fsWrite]
  · rw [hfirst]
    unfold get_tile
    simp [fsWrite]

/-- Witness instantiating the upload-failure theorem on the concrete
failing environment at tile (1, 2). -/
theorem get_tile_upload_failure_behavior_witness :
    (get_tile envUploadFails emptyFS 1 2).1 =
        Except.error .connectionError ∧
      (get_tile envUploadFails emptyFS 1 2).2
          (tile_local_path envUploadFails 1 2) =
        some (envUploadFails.render 1 2) ∧
      (get_tile envUploadFails ((get_tile envUploadFails emptyFS 1 2).2)
          1 2).1 =
        Except.ok (envUploadFails.render 1 2) :=
  get_tile_upload_failure_behavior envUploadFails emptyFS 1 2
    failingUploadRC .connectionError rfl rfl rfl rfl

/-- Python int() of a nonnegative float is the floor. -/
theorem pyInt_eq_floor {r : ℝ} (h : 0 ≤ r) : pyInt r = ⌊r⌋ := if_pos h

/-- C8 counterexample: a renderer over a 512.5 x 512.5-unit crop at the
reference DPI with 512 x 512 tiles has tile_count (1, 1), because the
image size is truncated to 512 whole pixels before tiling, while the
claim's untruncated formula ceil(512.5 * (72/72) / 512) gives (2, 2). -/
theorem tile_count_differs_from_claim_formula :
    tile_count cfgHalf = (1, 1) ∧
      tile_count_claim cfgHalf = (2, 2) ∧
      ((1 : ℤ), (1 : ℤ)) ≠ ((2 : ℤ), (2 : ℤ)) := by
  refine ⟨?_, ?_, by decide⟩
  · have himg : image_size cfgHalf = (512, 512) := by
      unfold image_size crop_rect cfgHalf scale pyInt
      norm_num
    unfold tile_count
    rw [himg]
    unfold cfgHalf
    norm_num [Int.ceil_eq_iff]
  · unfold tile_count_claim crop_rect cfgHalf
    norm_num [Int.ceil_eq_iff]

/-- C8 amended: the image size is truncated to an integer pixel count
(Python int) before tiling, so tile_count is the ceiling of the
truncated image size divided by the tile size per axis; the 3000 x 2000
at 600 DPI / 512-tile scenario still yields (49, 33). -/
theorem tile_count_truncated_formula :
    tile_count cfgScenario = (49, 33) ∧
      ∀ c : TileRendererCfg,
        0 ≤ ((crop_rect c).p1.1 - (crop_rect c).p0.1) * scale c →
        0 ≤ ((crop_rect c).p1.2 - (crop_rect c).p0.2) * scale c →
        tile_count c =
          (⌈((⌊((crop_rect c).p1.1 - (crop_rect c).p0.1) * scale c⌋ : ℤ) :
              ℝ) / c.tile_size.1⌉,
           ⌈((⌊((crop_rect c).p1.2 - (crop_rect c).p0.2) * scale c⌋ : ℤ) :
              ℝ) / c.tile_size.2⌉) := by
  constructor
  · have himg : image_size cfgScenario = (25000, 16666) := by
      unfold image_size crop_rect cfgScenario scale pyInt
      norm_num [Int.floor_eq_iff]
    unfold tile_count
    rw [himg]
    unfold cfgScenario
    norm_num [Int.ceil_eq_iff]
  · intro c h1 h2
    unfold tile_count image_size
    rw [pyInt_eq_floor h1, pyInt_eq_floor h2]

/-- Witness instantiating the truncated tile-count formula on the
reference-DPI configuration. -/
theorem tile_count_truncated_formula_witness :
    tile_count cfgRef =
      (⌈((⌊((crop_rect cfgRef).p1.1 - (crop_rect cfgRef).p0.1) *
          scale cfgRef⌋ : ℤ) : ℝ) / cfgRef.tile_size.1⌉,
       ⌈((⌊((crop_rect cfgRef).p1.2 - (crop_rect cfgRef).p0.2) *
          scale cfgRef⌋ : ℤ) : ℝ) / cfgRef.tile_size.2⌉) :=
  tile_count_truncated_formula.2 cfgRef
    (by unfold crop_rect cfgRef scale; norm_num)
    (by unfold crop_rect cfgRef scale; norm_num)

/-- C9 counterexample: on the reference-DPI 3000 x 2000 configuration
(scale 1, 512-pixel tiles, 6 tile columns), the clip of tile (0, 0) ends
at x = 511 rather than extending the full tile to x = 512, and the clip
of the adjacent tile (1, 0) starts at x = 512 - so the strip between
511 and 512 belongs to no clip and the clips do not partition the crop
rectangle. -/
theorem render_clip_not_full_tile :
    (render_clip cfgRef 0 0).p1.1 = 511 ∧
      (render_clip cfgRef 1 0).p0.1 = 512 ∧
      (511 : ℝ) ≠ 512 := by
  refine ⟨?_, ?_, by norm_num⟩
  · unfold render_clip crop_rect cfgRef scale
    norm_num
  · unfold render_clip crop_rect cfgRef scale
    norm_num

/-- C9 amended: the clip of tile (x, y) starts at the crop origin offset
by (x, y) times the tile size converted to reference units, but extends
only tileSize - 1 pixels per axis (clamped to the crop rectangle);
consequently, where no clamping occurs, the clip of the horizontally
adjacent tile starts one pixel (1/scale reference units) after the
current clip ends, leaving a gap instead of a partition. -/
theorem render_clip_formula_and_gap (c : TileRendererCfg) (x y : ℤ)
    (hx : (crop_rect c).p0.1 +
        ((x : ℝ) * c.tile_size.1 + c.tile_size.1 - 1) / scale c ≤
        (crop_rect c).p1.1)
    (hy : (crop_rect c).p0.2 +
        ((y : ℝ) * c.tile_size.2 + c.tile_size.2 - 1) / scale c ≤
        (crop_rect c).p1.2) :
    render_clip c x y =
      ⟨((crop_rect c).p0.1 + (x : ℝ) * c.tile_size.1 / scale c,
        (crop_rect c).p0.2 + (y : ℝ) * c.tile_size.2 / scale c),
       ((crop_rect c).p0.1 +
          ((x : ℝ) * c.tile_size.1 + c.tile_size.1 - 1) / scale c,
        (crop_rect c).p0.2 +
          ((y : ℝ) * c.tile_size.2 + c.tile_size.2 - 1) / scale c)⟩ ∧
      (render_clip c (x + 1) y).p0.1 - (render_clip c x y).p1.1 =
        1 / scale c := by
  have hmx : min (crop_rect c).p1.1
      ((crop_rect c).p0.1 +
        ((x : ℝ) * c.tile_size.1 + c.tile_size.1 - 1) / scale c) =
      (crop_rect c).p0.1 +
        ((x : ℝ) * c.tile_size.1 + c.tile_size.1 - 1) / scale c :=
    min_eq_right hx
  have hmy : min (crop_rect c).p1.2
      ((crop_rect c).p0.2 +
        ((y : ℝ) * c.tile_size.2 + c.tile_size.2 - 1) / scale c) =
      (crop_rect c).p0.2 +
        ((y : ℝ) * c.tile_size.2 + c.tile_size.2 - 1) / scale c :=
    min_eq_right hy
  constructor
  · simp only [render_clip]
    rw [hmx, hmy]
  · simp only [render_clip]
    rw [hmx]
    push_cast
    ring

/-- Witness instantiating the clip formula and gap at tile (0, 0) of the
reference configuration. -/
theorem render_clip_formula_and_gap_witness :
    (render_clip cfgRef 0 0 =
        ⟨((crop_rect cfgRef).p0.1 +
            ((0 : ℤ) : ℝ) * cfgRef.tile_size.1 / scale cfgRef,
          (crop_rect cfgRef).p0.2 +
            ((0 : ℤ) : ℝ) * cfgRef.tile_size.2 / scale cfgRef),
         ((crop_rect cfgRef).p0.1 +
            (((0 : ℤ) : ℝ) * cfgRef.tile_size.1 + cfgRef.tile_size.1 - 1) /
              scale cfgRef,
          (crop_rect cfgRef).p0.2 +
            (((0 : ℤ) : ℝ) * cfgRef.tile_size.2 + cfgRef.tile_size.2 - 1) /
              scale cfgRef)⟩ ∧
      (render_clip cfgRef ((0 : ℤ) + 1) 0).p0.1 -
          (render_clip cfgRef 0 0).p1.1 =
        1 / scale cfgRef) :=
  render_clip_formula_and_gap cfgRef 0 0
    (by unfold crop_rect cfgRef scale; norm_num)
    (by unfold crop_rect cfgRef scale; norm_num)

/-- C10: get_tile_order replaces a supplied center coordinate of exactly
zero (like an absent one) by half the full map tile count, and therefore
get_tile_list_for_area, for a query rectangle whose tile-index-range
midpoint is exactly zero on the x axis, orders its tiles around the full
map x-center exactly as if no center had been supplied. -/
theorem area_order_uses_map_center_when_midpoint_zero
    (c : TileRendererCfg) (q : SimpleRect)
    (hx : ((tile_bounds c q).2.1 : ℝ) + ((tile_bounds c q).1 : ℝ) = 0) :
    (∀ h : ℝ, resolve_center h (some 0) = h ∧
        resolve_center h Option.none = h) ∧
      (get_tile_list_for_area c q).ordered_tile_list =
        get_tile_order c (some (area_tile_list c q)) Option.none
          (some ((((tile_bounds c q).2.2.2 : ℝ) +
            ((tile_bounds c q).2.2.1 : ℝ)) / 2)) := by
  refine ⟨fun h => ⟨by simp [resolve_center], rfl⟩, ?_⟩
  unfold get_tile_list_for_area
  have hc : (((tile_bounds c q).2.1 : ℝ) + ((tile_bounds c q).1 : ℝ)) / 2
      = 0 := by rw [hx]; ring
  simp only [hc]
  unfold get_tile_order
  simp [resolve_center]

/-- Witness instantiating the zero-midpoint ordering theorem on the
concrete symmetric configuration. -/
theorem area_order_uses_map_center_when_midpoint_zero_witness :
    (∀ h : ℝ, resolve_center h (some 0) = h ∧
        resolve_center h Option.none = h) ∧
      (get_tile_list_for_area cfgSym qSym).ordered_tile_list =
        get_tile_order cfgSym (some (area_tile_list cfgSym qSym))
          Option.none
          (some ((((tile_bounds cfgSym qSym).2.2.2 : ℝ) +
            ((tile_bounds cfgSym qSym).2.2.1 : ℝ)) / 2)) :=
  area_order_uses_map_center_when_midpoint_zero cfgSym qSym (by
    have hb : tile_bounds cfgSym qSym = (-1, 1, -1, 1) := by
      unfold tile_bounds cfgSym qSym scale
      norm_num [Int.floor_eq_iff, Int.ceil_eq_iff]
    rw [hb]
    norm_num)

end VFR
